import Mathlib

/-!
Verification of the kolibri device-management fragment: the constant
catalogs (PageNames, ContentWizardPages, TaskTypes, TaskStatuses,
TransferTypes) and the five state accessors of
`device_management/state/getters.js`, shallowly embedded in Lean.

Each catalog is embedded as the ordered list of (key, value) pairs
exactly as the source writes them.  The state tree is embedded as
nested structures; the field `pageState.wizardState` is an `Option`
because the accessors read it from an externally owned tree where it
may be absent, and `none` models the access failure the host
environment produces in that case (propagated by every accessor, never
caught).  Fields of the surrounding tree that the accessors never read
are kept as opaque association lists so that dependence claims are not
vacuous.
-/

namespace Kolibri

/-- Catalog of top-level admin page names, as the ordered (key, value)
pairs of the source object. -/
def PageNames : List (String × String) :=
  [("MANAGE_CONTENT_PAGE", "MANAGE_CONTENT_PAGE"),
   ("MANAGE_PERMISSIONS_PAGE", "MANAGE_PERMISSIONS_PAGE"),
   ("USER_PERMISSIONS_PAGE", "USER_PERMISSIONS_PAGE")]

/-- Catalog of import/export wizard page names. -/
def ContentWizardPages : List (String × String) :=
  [("CHOOSE_IMPORT_SOURCE", "CHOOSE_IMPORT_SOURCE"),
   ("EXPORT", "EXPORT"),
   ("IMPORT_LOCAL", "IMPORT_LOCAL"),
   ("IMPORT_NETWORK", "IMPORT_NETWORK"),
   ("AVAILABLE_CHANNELS", "AVAILABLE_CHANNELS")]

/-- Catalog of background task type tokens. -/
def TaskTypes : List (String × String) :=
  [("REMOTE_IMPORT", "remoteimport"),
   ("LOCAL_IMPORT", "localimport"),
   ("LOCAL_EXPORT", "localexport"),
   ("DELETE_CHANNEL", "deletechannel")]

/-- Catalog of background task lifecycle status tokens. -/
def TaskStatuses : List (String × String) :=
  [("IN_PROGRESS", "INPROGRESS"),
   ("COMPLETED", "COMPLETED"),
   ("FAILED", "FAILED"),
   ("PENDING", "PENDING"),
   ("RUNNING", "RUNNING"),
   ("QUEUED", "QUEUED"),
   ("SCHEDULED", "SCHEDULED")]

/-- Catalog of transfer direction tokens. -/
def TransferTypes : List (String × String) :=
  [("LOCALIMPORT", "localimport"),
   ("REMOTEIMPORT", "remoteimport"),
   ("LOCALEXPORT", "localexport")]

/-- Metadata of a drive descriptor: its sequence of channels.  Channel
descriptors are opaque to this layer, represented by strings. -/
structure DriveMetadata where
  channels : List String
  deriving DecidableEq, Repr

/-- Drive descriptor: an identifier plus its metadata. -/
structure Drive where
  id : String
  metadata : DriveMetadata
  deriving DecidableEq, Repr

/-- The selectedItems sub-object of the wizard state: its ordered
sequence of selected node identifiers. -/
structure SelectedItems where
  nodes : List String
  deriving DecidableEq, Repr

/-- The wizard state sub-tree read by the accessors. -/
structure WizardState where
  selectedItems : SelectedItems
  availableChannels : List String
  driveList : List Drive
  channelList : List String
  deriving DecidableEq, Repr

/-- The pageState sub-tree.  Its wizardState field may be absent
(`none`); otherPageFields stands for the rest of pageState, which the
accessors never read. -/
structure PageState where
  wizardState : Option WizardState
  otherPageFields : List (String × String)
  deriving DecidableEq, Repr

/-- The root state tree.  otherStateFields stands for all sibling
fields of pageState, which the accessors never read. -/
structure State where
  pageState : PageState
  otherStateFields : List (String × String)
  deriving DecidableEq, Repr

/-- Accessor wizardState of getters.js: reads state.pageState.wizardState.
Returns `none` exactly when the field is absent, modelling the
propagated access failure. -/
def wizardState (state : State) : Option WizardState :=
  state.pageState.wizardState

/-- Accessor selectedNodes of getters.js: wizardState(state).selectedItems.nodes.
Absence of wizardState propagates as `none`. -/
def selectedNodes (state : State) : Option (List String) :=
  (wizardState state).map fun w => w.selectedItems.nodes

/-- Accessor availableChannels of getters.js: wizardState(state).availableChannels. -/
def availableChannels (state : State) : Option (List String) :=
  (wizardState state).map fun w => w.availableChannels

/-- Accessor driveChannelList of getters.js: returns the closure the
source names getListByDriveId, which scans wizardState(state).driveList
with find for the first entry whose id equals driveId and returns that
entry paired off to metadata.channels, or the empty list when no entry
matches. -/
def driveChannelList (state : State) : String → Option (List String) :=
  fun driveId =>
    (wizardState state).map fun w =>
      match w.driveList.find? (fun d => d.id == driveId) with
      | some m => m.metadata.channels
      | none => []

/-- Accessor installedChannelList of getters.js: wizardState(state).channelList. -/
def installedChannelList (state : State) : Option (List String) :=
  (wizardState state).map fun w => w.channelList

/-- Example drive with id a and one channel, from the scenario in the
spec. -/
def driveA : Drive := { id := "a", metadata := { channels := ["x"] } }

/-- Example drive with id b and two channels. -/
def driveB : Drive := { id := "b", metadata := { channels := ["y", "z"] } }

/-- Example wizard state holding both example drives. -/
def exWizard : WizardState :=
  { selectedItems := { nodes := ["n1", "n2"] },
    availableChannels := ["c1"],
    driveList := [driveA, driveB],
    channelList := ["c2"] }

/-- Example state whose wizardState is present. -/
def exState : State :=
  { pageState := { wizardState := some exWizard, otherPageFields := [] },
    otherStateFields := [] }

/-- A second state with the same wizardState sub-tree but different
unrelated fields. -/
def exState2 : State :=
  { pageState := { wizardState := some exWizard,
                   otherPageFields := [("toolbarTitle", "Content")] },
    otherStateFields := [("session", "admin")] }

/-- A state whose wizardState field is absent. -/
def emptyState : State :=
  { pageState := { wizardState := none, otherPageFields := [] },
    otherStateFields := [] }

/-- Helper: find on a list split around the first satisfying element
returns that element. -/
theorem find?_of_first {α : Type} (p : α → Bool) (l₁ l₂ : List α) (d : α)
    (h₁ : ∀ x ∈ l₁, p x = false) (hd : p d = true) :
    List.find? p (l₁ ++ d :: l₂) = some d := by
  induction l₁ with
  | nil => simp [List.find?_cons_of_pos, hd]
  | cons a t ih =>
    have ha : p a = false := h₁ a (List.mem_cons_self a t)
    rw [List.cons_append, List.find?_cons_of_neg _ (by simp [ha])]
    exact ih fun x hx => h₁ x (List.mem_cons_of_mem a hx)

/-- Helper: a successful find splits the list at the first satisfying
element. -/
theorem find?_eq_some_split {α : Type} (p : α → Bool) (l : List α) (d : α)
    (h : List.find? p l = some d) :
    ∃ l₁ l₂, l = l₁ ++ d :: l₂ ∧ p d = true ∧ ∀ x ∈ l₁, p x = false := by
  induction l with
  | nil => simp at h
  | cons a t ih =>
    by_cases ha : p a = true
    · rw [List.find?_cons_of_pos _ ha] at h
      cases h
      exact ⟨[], t, rfl, ha, by simp⟩
    · have ha' : p a = false := by simpa using ha
      rw [List.find?_cons_of_neg _ (by simp [ha'])] at h
      obtain ⟨l₁, l₂, rfl, hpd, hl⟩ := ih h
      refine ⟨a :: l₁, l₂, rfl, hpd, ?_⟩
      intro x hx
      rcases List.mem_cons.mp hx with rfl | hx
      · exact ha'
      · exact hl x hx

/-- C1 counterexample: the claim that every catalog value equals the
name of its key fails on the code; TaskTypes maps the key
REMOTE_IMPORT to the lowercase token remoteimport, which is not the
name of the key. -/
theorem c1_counterexample :
    ("REMOTE_IMPORT", "remoteimport") ∈ TaskTypes ∧
    ¬ (("REMOTE_IMPORT" : String) = "remoteimport") := by
  decide

/-- C1 (amended): in PageNames and ContentWizardPages every value
equals the name of its key; in TaskStatuses every key other than
IN_PROGRESS maps to its own name, while IN_PROGRESS maps to
INPROGRESS; in TaskTypes and TransferTypes no value equals the name of
its key (the values are lowercase underscore-free task tokens). -/
theorem c1_amended :
    (PageNames.all fun kv => kv.1 == kv.2) = true ∧
    (ContentWizardPages.all fun kv => kv.1 == kv.2) = true ∧
    (TaskStatuses.all fun kv => kv.1 == kv.2 || kv.1 == "IN_PROGRESS") = true ∧
    ("IN_PROGRESS", "INPROGRESS") ∈ TaskStatuses ∧
    (TaskTypes.all fun kv => kv.1 != kv.2) = true ∧
    (TransferTypes.all fun kv => kv.1 != kv.2) = true := by
  decide

/-- C5: every value of TransferTypes is also a value of TaskTypes, and
the only TaskTypes value with no TransferTypes counterpart is the
value deletechannel of the key DELETE_CHANNEL. -/
theorem transferTypes_subset_taskTypes :
    ((TransferTypes.map Prod.snd).all fun v =>
      (TaskTypes.map Prod.snd).contains v) = true ∧
    ((TaskTypes.map Prod.snd).filter fun v =>
      !(TransferTypes.map Prod.snd).contains v) = ["deletechannel"] ∧
    ("DELETE_CHANNEL", "deletechannel") ∈ TaskTypes := by
  decide

/-- C4: under the precondition that state.pageState.wizardState is
present, selectedNodes(state) is exactly the selectedItems.nodes field
of wizardState(state), with no copying or transformation. -/
theorem selectedNodes_pass_through (state : State) (w : WizardState)
    (hw : wizardState state = some w) :
    selectedNodes state = some w.selectedItems.nodes := by
  simp [selectedNodes, hw]

/-- C4 witness: on the example state, selectedNodes returns the nodes
sequence of the wizard state. -/
theorem selectedNodes_pass_through_witness :
    selectedNodes exState = some ["n1", "n2"] :=
  selectedNodes_pass_through exState exWizard rfl

/-- C6: when state.pageState.wizardState is present, wizardState
returns it unchanged and no access failure occurs; when it is absent,
the access failure (modelled by none) is propagated, not caught or
translated into a default. -/
theorem wizardState_spec (state : State) :
    (∀ w, state.pageState.wizardState = some w → wizardState state = some w) ∧
    (state.pageState.wizardState = none → wizardState state = none) := by
  exact ⟨fun w hw => hw, fun h => h⟩

/-- C6 witness: on the example state the wizard state is returned
unchanged, and on the state lacking the field the failure is
propagated. -/
theorem wizardState_spec_witness :
    wizardState exState = some exWizard ∧ wizardState emptyState = none :=
  ⟨(wizardState_spec exState).1 exWizard rfl, (wizardState_spec emptyState).2 rfl⟩

/-- C8: under the precondition, availableChannels(state) is the
availableChannels field of wizardState(state) and
installedChannelList(state) is its channelList field, both unmodified
pass-throughs. -/
theorem channels_pass_through (state : State) (w : WizardState)
    (hw : wizardState state = some w) :
    availableChannels state = some w.availableChannels ∧
    installedChannelList state = some w.channelList := by
  simp [availableChannels, installedChannelList, hw]

/-- C8 witness: on the example state, both pass-throughs return the
respective fields. -/
theorem channels_pass_through_witness :
    availableChannels exState = some ["c1"] ∧
    installedChannelList exState = some ["c2"] :=
  channels_pass_through exState exWizard rfl

/-- C2: when wizardState is present and its driveList contains an
entry whose id equals driveId, the closure returned by
driveChannelList applied to driveId returns metadata.channels of the
first such entry in list order (first match wins); in particular, when
ids are unique in driveList, it returns exactly the channels of the
unique matching entry. -/
theorem driveChannelList_first_match (state : State) (w : WizardState) (driveId : String)
    (hw : wizardState state = some w) :
    (∀ l₁ d l₂, w.driveList = l₁ ++ d :: l₂ → d.id = driveId →
      (∀ d' ∈ l₁, d'.id ≠ driveId) →
      driveChannelList state driveId = some d.metadata.channels) ∧
    ((w.driveList.map Drive.id).Nodup →
      ∀ d ∈ w.driveList, d.id = driveId →
      driveChannelList state driveId = some d.metadata.channels) := by
  have main : ∀ l₁ d l₂, w.driveList = l₁ ++ d :: l₂ → d.id = driveId →
      (∀ d' ∈ l₁, d'.id ≠ driveId) →
      driveChannelList state driveId = some d.metadata.channels := by
    intro l₁ d l₂ hsplit hd hfirst
    have hfind : w.driveList.find? (fun d' => d'.id == driveId) = some d := by
      rw [hsplit]
      apply find?_of_first
      · intro x hx
        simpa using hfirst x hx
      · simpa using hd
    simp [driveChannelList, hw, hfind]
  refine ⟨main, ?_⟩
  intro hnodup d hmem hid
  obtain ⟨l₁, l₂, hsplit⟩ := List.append_of_mem hmem
  apply main l₁ d l₂ hsplit hid
  intro d' hd'
  rw [hsplit, List.map_append, List.nodup_append] at hnodup
  obtain ⟨-, -, hdisj⟩ := hnodup
  have h1 : d'.id ∈ l₁.map Drive.id := List.mem_map_of_mem Drive.id hd'
  have h2 := hdisj h1
  simp only [List.map_cons, List.mem_cons] at h2
  intro hc
  exact h2 (Or.inl (hc.trans hid.symm))

/-- C2 witness: on the spec scenario state, looking up drive b returns
its two channels even though drive a comes first. -/
theorem driveChannelList_first_match_witness :
    driveChannelList exState "b" = some ["y", "z"] :=
  (driveChannelList_first_match exState exWizard "b" rfl).1
    [driveA] driveB [] rfl rfl (by decide)

/-- C3: when wizardState is present and no driveList entry has the
given id, the closure returns the empty sequence and no failure is
signalled (the result is some, not the failure value none). -/
theorem driveChannelList_not_found (state : State) (w : WizardState) (driveId : String)
    (hw : wizardState state = some w)
    (h : ∀ d ∈ w.driveList, d.id ≠ driveId) :
    driveChannelList state driveId = some [] := by
  have hfind : w.driveList.find? (fun d => d.id == driveId) = none := by
    apply List.find?_eq_none.mpr
    intro d hd
    simpa using h d hd
  simp [driveChannelList, hw, hfind]

/-- C3 witness: there is no drive c in the example state, and the
lookup returns the empty list. -/
theorem driveChannelList_not_found_witness :
    driveChannelList exState "c" = some [] :=
  driveChannelList_not_found exState exWizard "c" rfl (by decide)

/-- C9: the empty result does not distinguish the two cases; under the
precondition, the closure returns the empty sequence exactly when no
entry matches the id or the first matching entry has an empty
metadata.channels. -/
theorem driveChannelList_empty_iff (state : State) (w : WizardState) (driveId : String)
    (hw : wizardState state = some w) :
    driveChannelList state driveId = some [] ↔
      (∀ d ∈ w.driveList, d.id ≠ driveId) ∨
      ∃ l₁ d l₂, w.driveList = l₁ ++ d :: l₂ ∧ d.id = driveId ∧
        (∀ d' ∈ l₁, d'.id ≠ driveId) ∧ d.metadata.channels = [] := by
  cases hfind : w.driveList.find? (fun d => d.id == driveId) with
  | none =>
    have hres : driveChannelList state driveId = some [] := by
      simp [driveChannelList, hw, hfind]
    rw [hres]
    constructor
    · intro _
      left
      intro d hd
      have := List.find?_eq_none.mp hfind d hd
      simpa using this
    · intro _
      rfl
  | some m =>
    have hres : driveChannelList state driveId = some m.metadata.channels := by
      simp [driveChannelList, hw, hfind]
    rw [hres, Option.some_inj]
    constructor
    · intro hm
      right
      obtain ⟨l₁, l₂, hsplit, hpd, hl⟩ := find?_eq_some_split _ _ _ hfind
      exact ⟨l₁, m, l₂, hsplit, by simpa using hpd,
        fun d' hd' => by simpa using hl d' hd', hm⟩
    · intro hc
      rcases hc with hnone | ⟨l₁, d, l₂, hsplit, hd, hfirst, hemp⟩
      · exact absurd (by simpa using List.find?_some hfind)
          (hnone m (List.mem_of_find?_eq_some hfind))
      · have hfd : w.driveList.find? (fun d' => d'.id == driveId) = some d := by
          rw [hsplit]
          apply find?_of_first
          · intro x hx
            simpa using hfirst x hx
          · simpa using hd
        rw [hfind] at hfd
        cases hfd
        exact hemp

/-- C9 witness: drive q does not exist in the example state, so the
result is the empty list by the right-to-left direction. -/
theorem driveChannelList_empty_iff_witness :
    driveChannelList exState "q" = some [] :=
  (driveChannelList_empty_iff exState exWizard "q" rfl).mpr (Or.inl (by decide))

/-- C7: each of the five accessors is deterministic; two invocations
on equal states (and, for the closure of driveChannelList, equal drive
ids) return equal results.  Freedom from observable side effects holds
by construction of the embedding: every accessor is a pure function of
the state, faithfully so because the source performs no assignment. -/
theorem accessors_deterministic (s₁ s₂ : State) (driveId : String) (h : s₁ = s₂) :
    wizardState s₁ = wizardState s₂ ∧
    selectedNodes s₁ = selectedNodes s₂ ∧
    availableChannels s₁ = availableChannels s₂ ∧
    driveChannelList s₁ driveId = driveChannelList s₂ driveId ∧
    installedChannelList s₁ = installedChannelList s₂ := by
  subst h
  exact ⟨rfl, rfl, rfl, rfl, rfl⟩

/-- C7 witness: determinism applied to the example state. -/
theorem accessors_deterministic_witness :
    wizardState exState = wizardState exState ∧
    selectedNodes exState = selectedNodes exState ∧
    availableChannels exState = availableChannels exState ∧
    driveChannelList exState "b" = driveChannelList exState "b" ∧
    installedChannelList exState = installedChannelList exState :=
  accessors_deterministic exState exState "b" rfl

/-- C10: every accessor reads only the state.pageState.wizardState
sub-tree; two states agreeing on that field give equal results for all
five accessors, whatever the other fields of the state tree hold. -/
theorem accessors_depend_only_on_wizard (s₁ s₂ : State) (driveId : String)
    (h : s₁.pageState.wizardState = s₂.pageState.wizardState) :
    wizardState s₁ = wizardState s₂ ∧
    selectedNodes s₁ = selectedNodes s₂ ∧
    availableChannels s₁ = availableChannels s₂ ∧
    driveChannelList s₁ driveId = driveChannelList s₂ driveId ∧
    installedChannelList s₁ = installedChannelList s₂ := by
  have hw : wizardState s₁ = wizardState s₂ := h
  exact ⟨hw, by simp [selectedNodes, hw], by simp [availableChannels, hw],
    by simp [driveChannelList, hw], by simp [installedChannelList, hw]⟩

/-- C10 witness: the two example states differ in their unrelated
fields but agree on the wizard state, and the drive lookup agrees. -/
theorem accessors_depend_only_on_wizard_witness :
    wizardState exState = wizardState exState2 ∧
    selectedNodes exState = selectedNodes exState2 ∧
    availableChannels exState = availableChannels exState2 ∧
    driveChannelList exState "b" = driveChannelList exState2 "b" ∧
    installedChannelList exState = installedChannelList exState2 :=
  accessors_depend_only_on_wizard exState exState2 "b" rfl

end Kolibri
